import Mathlib

/-!
Shallow embedding of the core of `src/main.rs` (a playlist browser and
downloader built on a UI loop polling mpsc channels).

Modelling conventions:
* The remote YouTube API client is an oracle (`YouTubeClient`): each
  endpoint is a function from the request parameters to `Option` of the
  structured response, `none` meaning the network call itself failed
  (`.doit().await.ok()?` in the source).
* Response types carry exactly the fields the source reads, each as an
  `Option` because the underlying API types make every field optional.
* `PathBuf` is `String`; the filesystem is a function `String → Option Nat`
  giving the size of the file at a path (`none` = no file).  `path.exists()`
  is `(fs path).isSome`; writing the zero-length placeholder
  (`std::fs::write(&path, b"")`) sets the size to `0`.
* Channel sends performed by a spawned task are collected into lists, in
  program order; the consumer side (`Visualizer::update`) polls each channel
  with `try_recv`, modelled as a function from an optional freshly-read
  message to the updated consumer state.
-/

namespace YtDl

/-- The `DownloadStatus` enum of the source (line 81). -/
inductive DownloadStatus
  | Idle
  | Pending
  | Downloading
  | Finished
  | Failed
  deriving DecidableEq, Repr

/-- `YouTubeChannel` (source line 361). -/
structure YouTubeChannel where
  id : String
  name : String
  avatar_url : String
  deriving DecidableEq, Repr

/-- `PlaylistInfo` (source line 367). -/
structure PlaylistInfo where
  id : String
  title : String
  channel : YouTubeChannel
  deriving DecidableEq, Repr

/-- `PlaylistVideo` (source line 373). -/
structure PlaylistVideo where
  id : String
  title : String
  thumbnail_url : String
  deriving DecidableEq, Repr

/-- `PlaylistVideos` (source line 379). -/
structure PlaylistVideos where
  videos : List PlaylistVideo
  next_cursor : Option String
  deriving DecidableEq, Repr

/-- A thumbnail entry of the remote API (only the `url` field is read). -/
structure Thumbnail where
  url : Option String
  deriving DecidableEq, Repr

/-- Thumbnail details of the remote API (only `default` is read). -/
structure ThumbnailDetails where
  default : Option Thumbnail
  deriving DecidableEq, Repr

/-- `ChannelSnippet` fields read by `fetch_channel` (source line 429). -/
structure ChannelSnippet where
  title : Option String
  thumbnails : Option ThumbnailDetails
  deriving DecidableEq, Repr

/-- A channel item of the channels list response. -/
structure Channel where
  snippet : Option ChannelSnippet
  deriving DecidableEq, Repr

/-- Response of `channels().list(...)`. -/
structure ChannelListResponse where
  items : Option (List Channel)
  deriving DecidableEq, Repr

/-- `PlaylistSnippet` fields read by `fetch_playlist_info` (source line 453). -/
structure PlaylistSnippet where
  channel_id : Option String
  title : Option String
  deriving DecidableEq, Repr

/-- A playlist item of the playlists list response. -/
structure Playlist where
  snippet : Option PlaylistSnippet
  deriving DecidableEq, Repr

/-- Response of `playlists().list(...)`. -/
structure PlaylistListResponse where
  items : Option (List Playlist)
  deriving DecidableEq, Repr

/-- `PlaylistItemSnippet` fields read (source line 495). -/
structure PlaylistItemSnippet where
  title : Option String
  thumbnails : Option ThumbnailDetails
  deriving DecidableEq, Repr

/-- Content details of a playlist item (only `video_id` is read). -/
structure PlaylistItemContentDetails where
  video_id : Option String
  deriving DecidableEq, Repr

/-- `PlaylistItem` fields read (source line 490). -/
structure PlaylistItem where
  snippet : Option PlaylistItemSnippet
  content_details : Option PlaylistItemContentDetails
  deriving DecidableEq, Repr

/-- `PlaylistItemListResponse` fields read (source line 480). -/
structure PlaylistItemListResponse where
  items : Option (List PlaylistItem)
  next_page_token : Option String
  deriving DecidableEq, Repr

/-- The remote API client as an oracle: one function per endpoint used by the
source, returning `none` when the network call fails
(`.doit().await.ok()?`).  `playlist_items_list` additionally receives the
optional page cursor the caller set via `page_token` (source line 474). -/
structure YouTubeClient where
  channels_list : String → Option ChannelListResponse
  playlists_list : String → Option PlaylistListResponse
  playlist_items_list : String → Option String → Option PlaylistItemListResponse

/-- `Visualizer::fetch_channel` (source lines 419-439): one remote call, then
a chain of field extractions, any failure collapsing to `none`. -/
def fetch_channel (yt_client : YouTubeClient) (user_id : String) :
    Option YouTubeChannel := do
  let channels ← yt_client.channels_list user_id
  let items ← channels.items
  let channel ← items.head?
  let snippet ← channel.snippet
  let name ← snippet.title
  let thumbnails ← snippet.thumbnails
  let thumb ← thumbnails.default
  let url ← thumb.url
  pure { id := user_id, name := name, avatar_url := url }

/-- `Visualizer::fetch_playlist_info` (source lines 441-462): playlist
snippet call, then dependent channel call via `fetch_channel`; any failure
or missing field collapses to `none`. -/
def fetch_playlist_info (yt_client : YouTubeClient) (playlist_id : String) :
    Option PlaylistInfo := do
  let playlists ← yt_client.playlists_list playlist_id
  let items ← playlists.items
  let playlist ← items.head?
  let snippet ← playlist.snippet
  let title ← snippet.title
  let channel_id ← snippet.channel_id
  let channel ← fetch_channel yt_client channel_id
  pure { id := playlist_id, title := title, channel := channel }

/-- The per-item closure of the `filter_map` in
`Visualizer::fetch_video_page_with_cursor` (source lines 489-505): builds a
`PlaylistVideo` when every required field is present, `none` otherwise. -/
def parse_playlist_item (item : PlaylistItem) : Option PlaylistVideo := do
  let snippet ← item.snippet
  let content_details ← item.content_details
  let video_id ← content_details.video_id
  let title ← snippet.title
  let thumbnails ← snippet.thumbnails
  let thumb ← thumbnails.default
  let url ← thumb.url
  pure { id := video_id, title := title, thumbnail_url := url }

/-- `Visualizer::fetch_video_page_with_cursor` (source lines 464-509): one
remote call (with the optional cursor), failing to `none` when the call
fails or the `items` field is absent; otherwise the malformed items are
dropped by `filter_map` and the response token is passed through. -/
def fetch_video_page_with_cursor (yt_client : YouTubeClient)
    (playlist_id : String) (cursor : Option String) : Option PlaylistVideos := do
  let videos ← yt_client.playlist_items_list playlist_id cursor
  let items ← videos.items
  pure { videos := items.filterMap parse_playlist_item
         next_cursor := videos.next_page_token }

/-- The local media path of an item id: the source builds
`concat!(env!("CARGO_MANIFEST_DIR"), "/youtube/{}.mp4")` (lines 257 and 309);
the manifest directory is an arbitrary fixed prefix here. -/
def manifest_dir : String := "."

/-- `<mediaDir>/<id>.mp4`, the deterministic local path for an item id. -/
def media_path (id : String) : String :=
  manifest_dir ++ "/youtube/" ++ id ++ ".mp4"

/-- The filesystem: size of the file at each path, `none` when no file
exists.  `path.exists()` is `(fs path).isSome`. -/
def FileSystem : Type := String → Option Nat

/-- `std::fs::write(&path, b"")`: the zero-length placeholder write. -/
def write_placeholder (fs : FileSystem) (path : String) : FileSystem :=
  fun p => if p = path then some 0 else fs p

/-- Result of `video.download(&path)`: the transfer oracle gives the size of
the downloaded media on success and `none` on failure (in which case only
the placeholder remains at the path). -/
def Transfer : Type := String → Option Nat

/-- Apply one transfer attempt at `path` on top of `fs` (placeholder
already written): on success the file holds the downloaded bytes, on
failure the file is left as the transfer left it — the source ignores the
error, so the placeholder remains. -/
def apply_transfer (fs : FileSystem) (path : String) (transfer : Transfer) :
    FileSystem :=
  match transfer path with
  | some size => fun p => if p = path then some size else fs p
  | none => fs

/-- Everything observable from one single-item download interaction: the
status messages sent on the download-status channel (in order), the paths
sent on the downloaded-path channel, the resulting filesystem, and whether
a background task was spawned. -/
structure DownloadOutcome where
  statuses : List DownloadStatus
  reported_paths : List String
  fs : FileSystem
  task_spawned : Bool

/-- The spawned single-item download task (source lines 320-346): sends
`Pending`, writes the zero-length placeholder, sends `Downloading`, then
performs the transfer; on success it sends the path and `Finished`, on
failure (`is_ok()` false) it sends nothing further. -/
def single_download_task (fs : FileSystem) (path : String)
    (transfer : Transfer) : List DownloadStatus × List String × FileSystem :=
  let statuses := [DownloadStatus.Pending]
  let fs := write_placeholder fs path
  let statuses := statuses ++ [DownloadStatus.Downloading]
  match transfer path with
  | some size =>
      (statuses ++ [DownloadStatus.Finished], [path],
        fun p => if p = path then some size else fs p)
  | none => (statuses, [], fs)

/-- The "watch" button handler for one video id (source lines 306-347): if
the local media path exists the path is sent immediately and nothing is
spawned; otherwise the single-item download task is spawned. -/
def watch_clicked (fs : FileSystem) (id : String) (transfer : Transfer) :
    DownloadOutcome :=
  let path := media_path id
  if (fs path).isSome then
    { statuses := [], reported_paths := [path], fs := fs, task_spawned := false }
  else
    let r := single_download_task fs path transfer
    { statuses := r.1, reported_paths := r.2.1, fs := r.2.2,
      task_spawned := true }

/-- Everything observable from one bulk "download all videos" interaction:
the status messages sent (in order), the ids whose download tasks were
launched as the batch, and the resulting filesystem. -/
structure BulkOutcome where
  statuses : List DownloadStatus
  launched : List String
  fs : FileSystem

/-- One batch item of the bulk path (source lines 267-287): writes the
zero-length placeholder, then performs the transfer with the result
discarded (`_ = video.download(&path).await`). -/
def run_bulk_item (fs : FileSystem) (path : String) (transfer : Transfer) :
    FileSystem :=
  apply_transfer (write_placeholder fs path) path transfer

/-- The "download all videos" button handler (source lines 240-295): sends
`Pending`, filters the displayed ids to those whose local path does not
exist (`(!path.exists()).then_some((id, path))`), then spawns one task that
sends `Downloading`, awaits the whole batch (`join_all`, individual results
discarded) and sends `Finished`.  The concurrent batch is modelled as a
left fold of the per-item effects. -/
def download_all_clicked (fs : FileSystem) (ids : List String)
    (transfer : Transfer) : BulkOutcome :=
  let statuses := [DownloadStatus.Pending]
  let id_path_map := ids.filterMap fun id =>
    let path := media_path id
    if (fs path).isSome then none else some (id, path)
  { statuses := statuses ++ [DownloadStatus.Downloading]
        ++ [DownloadStatus.Finished]
    launched := id_path_map.map Prod.fst
    fs := id_path_map.foldl (fun acc p => run_bulk_item acc p.2 transfer) fs }

/-- The consumer-side state of `Visualizer` read or written while draining
the channels and firing triggers (source lines 107-125; the UI-only fields
are omitted). -/
structure VisualizerState where
  current_playlist_id : String
  current_page_cursor : Option String
  current_downloaded_path : Option String
  playlist_info : Option PlaylistInfo
  playlist_videos_info : Option PlaylistVideos
  download_status : DownloadStatus

/-- Drain step of the playlist-info channel (source lines 133-135): an
available message replaces the stored value wholesale, no message leaves
the state untouched. -/
def poll_playlist_info (v : VisualizerState) (msg : Option PlaylistInfo) :
    VisualizerState :=
  match msg with
  | some playlist_info => { v with playlist_info := some playlist_info }
  | none => v

/-- Drain step of the page-of-videos channel (source lines 137-139):
replaces the stored page wholesale; note it does not touch
`current_page_cursor`. -/
def poll_playlist_videos_info (v : VisualizerState)
    (msg : Option PlaylistVideos) : VisualizerState :=
  match msg with
  | some playlist_videos_info =>
      { v with playlist_videos_info := some playlist_videos_info }
  | none => v

/-- Drain step of the download-status channel (source lines 141-147): a
freshly read `Finished` is stored as `Idle`, any other read value is stored
as-is, no message leaves the state untouched. -/
def poll_download_status (v : VisualizerState) (msg : Option DownloadStatus) :
    VisualizerState :=
  match msg with
  | some download_status =>
      if download_status = DownloadStatus.Finished then
        { v with download_status := DownloadStatus.Idle }
      else
        { v with download_status := download_status }
  | none => v

/-- What the search trigger spawns: the message each fetch puts on its
channel (`none` when the fetch yielded absent and nothing was sent), and
the cursor that was passed to the page fetch. -/
structure SearchSpawn where
  info_msg : Option PlaylistInfo
  page_msg : Option PlaylistVideos
  cursor_sent : Option String

/-- The search ("🔍") button handler (source lines 165-193): clones the
current playlist id and cursor, then the spawned task runs
`fetch_playlist_info` and `fetch_video_page_with_cursor` and sends each
result only when it is present. -/
def search_clicked (v : VisualizerState) (yt_client : YouTubeClient) :
    SearchSpawn :=
  let cloned_playlist_id := v.current_playlist_id
  let cloned_cursor := v.current_page_cursor
  { info_msg := fetch_playlist_info yt_client cloned_playlist_id
    page_msg :=
      fetch_video_page_with_cursor yt_client cloned_playlist_id cloned_cursor
    cursor_sent := cloned_cursor }

/-! Concrete fixtures used by witnesses and counterexamples. -/

/-- A remote client whose every call fails at the network level. -/
def yt_failing : YouTubeClient :=
  { channels_list := fun _ => none
    playlists_list := fun _ => none
    playlist_items_list := fun _ _ => none }

/-- A channel snippet with every required field present. -/
def demo_channel_snippet : ChannelSnippet :=
  { title := some "Artist"
    thumbnails := some { default := some { url := some "http://a/img.png" } } }

/-- A channels response with every required field present. -/
def demo_channel_resp : ChannelListResponse :=
  { items := some [{ snippet := some demo_channel_snippet }] }

/-- A playlist snippet with every required field present. -/
def demo_playlist_snippet : PlaylistSnippet :=
  { channel_id := some "C1", title := some "Mix" }

/-- A playlists response with every required field present. -/
def demo_playlist_resp : PlaylistListResponse :=
  { items := some [{ snippet := some demo_playlist_snippet }] }

/-- A playlist item with every required field present. -/
def demo_good_item : PlaylistItem :=
  { snippet := some
      { title := some "T1"
        thumbnails := some { default := some { url := some "u1" } } }
    content_details := some { video_id := some "v1" } }

/-- A playlist item missing its title (and so malformed). -/
def demo_bad_item : PlaylistItem :=
  { snippet := some
      { title := none
        thumbnails := some { default := some { url := some "u2" } } }
    content_details := some { video_id := some "v2" } }

/-- A playlist-items response holding one well-formed and one malformed
item, with a continuation token. -/
def demo_items_resp : PlaylistItemListResponse :=
  { items := some [demo_good_item, demo_bad_item]
    next_page_token := some "tok2" }

/-- A remote client answering every endpoint with complete data. -/
def yt_demo : YouTubeClient :=
  { channels_list := fun _ => some demo_channel_resp
    playlists_list := fun _ => some demo_playlist_resp
    playlist_items_list := fun _ _ => some demo_items_resp }

/-- A remote client whose playlist-items call succeeds but returns a
response with no `items` field at all, yet with a continuation token. -/
def yt_no_items : YouTubeClient :=
  { channels_list := fun _ => none
    playlists_list := fun _ => none
    playlist_items_list := fun _ _ =>
      some { items := none, next_page_token := some "tok" } }

/-- A filesystem holding a single non-empty media file for id `v1`. -/
def fs_full_v1 : FileSystem :=
  fun p => if p = media_path "v1" then some 5 else none

/-- A filesystem holding a single zero-length placeholder for id `v1`. -/
def fs_empty_v1 : FileSystem :=
  fun p => if p = media_path "v1" then some 0 else none

/-- A consumer state with a stored playlist info and no stored page. -/
def v_demo : VisualizerState :=
  { current_playlist_id := "PL123"
    current_page_cursor := none
    current_downloaded_path := none
    playlist_info := some
      { id := "PLold", title := "Old"
        channel := { id := "C0", name := "Owner", avatar_url := "http://o" } }
    playlist_videos_info := some { videos := [], next_cursor := none }
    download_status := DownloadStatus.Idle }

/-! Helper lemmas (shared, not tied to a single claim). -/

/-- The ids of the filtered id/path batch are exactly the ids whose media
path does not exist. -/
theorem bulk_filter_ids (fs : FileSystem) (ids : List String) :
    (ids.filterMap fun id =>
        let path := media_path id
        if (fs path).isSome then none else some (id, path)).map Prod.fst
      = ids.filter fun id => (fs (media_path id)).isNone := by
  induction ids with
  | nil => rfl
  | cons id rest ih =>
      cases hfs : fs (media_path id) with
      | none => simp [List.filterMap_cons, List.filter_cons, hfs, ih]
      | some a => simp [List.filterMap_cons, List.filter_cons, hfs, ih]

/-! Claim theorems. -/

/-- Claim C3: on every consumer poll of the download-status channel exactly
one transform is applied: a freshly read `Finished` is stored as `Idle`,
any other read value is stored as-is; after reading `Finished` once, a
further poll with no message still shows `Idle`. -/
theorem poll_download_status_transform (v : VisualizerState) (s : DownloadStatus) :
    (poll_download_status v (some s)).download_status
      = (if s = DownloadStatus.Finished then DownloadStatus.Idle else s)
    ∧ (poll_download_status
        (poll_download_status v (some DownloadStatus.Finished)) none).download_status
      = DownloadStatus.Idle := by
  constructor
  · by_cases h : s = DownloadStatus.Finished <;> simp [poll_download_status, h]
  · rfl

/-- Claim C4: requesting a single-item download when the local media path
already exists is a no-op: no task is spawned, no status message is sent,
the filesystem is untouched, and the existing path is reported immediately
on the downloaded-path channel. -/
theorem watch_existing_path_idempotent (fs : FileSystem) (id : String)
    (transfer : Transfer) (h : (fs (media_path id)).isSome) :
    (watch_clicked fs id transfer).task_spawned = false
    ∧ (watch_clicked fs id transfer).statuses = []
    ∧ (watch_clicked fs id transfer).reported_paths = [media_path id]
    ∧ (watch_clicked fs id transfer).fs = fs := by
  refine ⟨?_, ?_, ?_, ?_⟩ <;> simp [watch_clicked, h]

/-- Witness for C4 at a concrete filesystem holding a file for `v1`. -/
theorem watch_existing_path_idempotent_witness :
    (fs_full_v1 (media_path "v1")).isSome = true
    ∧ (watch_clicked fs_full_v1 "v1" (fun _ => none)).task_spawned = false
    ∧ (watch_clicked fs_full_v1 "v1" (fun _ => none)).reported_paths
        = [media_path "v1"] :=
  ⟨by decide,
   (watch_existing_path_idempotent fs_full_v1 "v1" (fun _ => none) (by decide)).1,
   (watch_existing_path_idempotent fs_full_v1 "v1" (fun _ => none) (by decide)).2.2.1⟩

/-- Claim C8: the bulk download sends `Pending`, `Downloading`, `Finished`
each exactly once and in that order, launches exactly the displayed ids
whose local path does not exist as one batch, and its status messages do
not depend on the outcome of any individual transfer. -/
theorem download_all_statuses_and_filter (fs : FileSystem) (ids : List String)
    (transfer : Transfer) :
    (download_all_clicked fs ids transfer).statuses
      = [DownloadStatus.Pending, DownloadStatus.Downloading, DownloadStatus.Finished]
    ∧ (download_all_clicked fs ids transfer).launched
      = ids.filter (fun id => (fs (media_path id)).isNone)
    ∧ ∀ transfer2 : Transfer,
        (download_all_clicked fs ids transfer2).statuses
          = (download_all_clicked fs ids transfer).statuses := by
  refine ⟨rfl, ?_, fun _ => rfl⟩
  simpa [download_all_clicked] using bulk_filter_ids fs ids

/-- Claim C10: a successful playlist-items response with no `items` field at
all makes `fetch_video_page_with_cursor` yield absent (even when a
continuation token is present); an explicitly empty item list yields an
empty page instead. -/
theorem fetch_page_absent_items (yt_client : YouTubeClient) (playlist_id : String)
    (cursor : Option String) (resp : PlaylistItemListResponse)
    (hcall : yt_client.playlist_items_list playlist_id cursor = some resp) :
    (resp.items = none →
      fetch_video_page_with_cursor yt_client playlist_id cursor = none)
    ∧ (resp.items = some [] →
      fetch_video_page_with_cursor yt_client playlist_id cursor
        = some { videos := [], next_cursor := resp.next_page_token }) := by
  constructor <;> intro h <;>
    simp [fetch_video_page_with_cursor, hcall, h]

/-- Witness for C10: a concrete response without `items` but with a token
makes the fetch yield absent. -/
theorem fetch_page_absent_items_witness :
    yt_no_items.playlist_items_list "PL123" none
      = some { items := none, next_page_token := some "tok" }
    ∧ fetch_video_page_with_cursor yt_no_items "PL123" none = none :=
  ⟨rfl,
   (fetch_page_absent_items yt_no_items "PL123" none
      { items := none, next_page_token := some "tok" } rfl).1 rfl⟩

/-- Claim C6: `fetch_playlist_info` is all-or-nothing — a produced
`PlaylistInfo` certifies that both dependent remote calls succeeded and
every required field (playlist title, channel id, channel name, channel
avatar URL) was present, and the result is built entirely from them; by
contraposition, any failure or missing field yields absent and no partial
`PlaylistInfo` is ever produced. -/
theorem fetch_playlist_info_all_or_nothing (yt_client : YouTubeClient)
    (playlist_id : String) (info : PlaylistInfo)
    (h : fetch_playlist_info yt_client playlist_id = some info) :
    ∃ presp pl psnip title cid cresp ch csnip name tds thumb url,
      yt_client.playlists_list playlist_id = some presp
      ∧ presp.items.bind List.head? = some pl
      ∧ pl.snippet = some psnip
      ∧ psnip.title = some title
      ∧ psnip.channel_id = some cid
      ∧ yt_client.channels_list cid = some cresp
      ∧ cresp.items.bind List.head? = some ch
      ∧ ch.snippet = some csnip
      ∧ csnip.title = some name
      ∧ csnip.thumbnails = some tds
      ∧ tds.default = some thumb
      ∧ thumb.url = some url
      ∧ info = { id := playlist_id, title := title,
                 channel := { id := cid, name := name, avatar_url := url } } := by
  simp only [fetch_playlist_info, fetch_channel, bind, Option.bind_eq_some,
    Option.pure_def, Option.some_inj] at h
  obtain ⟨presp, hpl, items, hitems, pl, hhead, psnip, hsnip, title, htitle,
    cid, hcid, channel, hch, hinfo⟩ := h
  obtain ⟨cresp, hcl, citems, hcitems, ch, hchead, csnip, hcsnip, name, hname,
    tds, htds, thumb, hthumb, url, hurl, hchannel⟩ := hch
  refine ⟨presp, pl, psnip, title, cid, cresp, ch, csnip, name, tds, thumb, url,
    hpl, ?_, hsnip, htitle, hcid, hcl, ?_, hcsnip, hname, htds, hthumb, hurl, ?_⟩
  · rw [hitems]; exact hhead
  · rw [hcitems]; exact hchead
  · rw [← hinfo, ← hchannel]

/-- Witness for C6 at a complete concrete remote client. -/
theorem fetch_playlist_info_all_or_nothing_witness :
    fetch_playlist_info yt_demo "PL123"
      = some { id := "PL123", title := "Mix",
               channel := { id := "C1", name := "Artist",
                            avatar_url := "http://a/img.png" } }
    ∧ ∃ presp pl psnip title cid cresp ch csnip name tds thumb url,
      yt_demo.playlists_list "PL123" = some presp
      ∧ presp.items.bind List.head? = some pl
      ∧ pl.snippet = some psnip
      ∧ psnip.title = some title
      ∧ psnip.channel_id = some cid
      ∧ yt_demo.channels_list cid = some cresp
      ∧ cresp.items.bind List.head? = some ch
      ∧ ch.snippet = some csnip
      ∧ csnip.title = some name
      ∧ csnip.thumbnails = some tds
      ∧ tds.default = some thumb
      ∧ thumb.url = some url
      ∧ ({ id := "PL123", title := "Mix",
           channel := { id := "C1", name := "Artist",
                        avatar_url := "http://a/img.png" } } : PlaylistInfo)
          = { id := "PL123", title := title,
              channel := { id := cid, name := name, avatar_url := url } } :=
  ⟨rfl, fetch_playlist_info_all_or_nothing yt_demo "PL123" _ rfl⟩

/-- Claim C7: when the remote playlist-items call succeeds and carries an
item list, the fetched page is exactly the malformed-item-free projection
of the list in its original order together with the response token, and an
item is dropped precisely when it misses a required field (video id, title,
or thumbnail URL). -/
theorem fetch_page_lenient (yt_client : YouTubeClient) (playlist_id : String)
    (cursor : Option String) (resp : PlaylistItemListResponse)
    (items : List PlaylistItem)
    (hcall : yt_client.playlist_items_list playlist_id cursor = some resp)
    (hitems : resp.items = some items) :
    fetch_video_page_with_cursor yt_client playlist_id cursor
      = some { videos := items.filterMap parse_playlist_item
               next_cursor := resp.next_page_token }
    ∧ ∀ item : PlaylistItem, parse_playlist_item item = none ↔
        (item.content_details.bind PlaylistItemContentDetails.video_id = none
         ∨ item.snippet.bind PlaylistItemSnippet.title = none
         ∨ (((item.snippet.bind PlaylistItemSnippet.thumbnails).bind
              ThumbnailDetails.default).bind Thumbnail.url) = none) := by
  constructor
  · simp [fetch_video_page_with_cursor, hcall, hitems]
  · intro item
    obtain ⟨snip, cd⟩ := item
    rcases snip with _ | ⟨title, thumbnails⟩
    · simp [parse_playlist_item]
    rcases cd with _ | ⟨vid⟩
    · simp [parse_playlist_item]
    rcases vid with _ | v
    · simp [parse_playlist_item]
    rcases title with _ | t
    · simp [parse_playlist_item]
    rcases thumbnails with _ | tds
    · simp [parse_playlist_item]
    obtain ⟨d⟩ := tds
    rcases d with _ | thumb
    · simp [parse_playlist_item]
    obtain ⟨u⟩ := thumb
    rcases u with _ | url
    · simp [parse_playlist_item]
    · simp [parse_playlist_item]

/-- Witness for C7: the malformed item of a concrete two-item response is
dropped and the well-formed one is kept, with the token passed through. -/
theorem fetch_page_lenient_witness :
    fetch_video_page_with_cursor yt_demo "PL123" none
      = some { videos := [{ id := "v1", title := "T1", thumbnail_url := "u1" }]
               next_cursor := some "tok2" }
    ∧ parse_playlist_item demo_bad_item = none :=
  ⟨(fetch_page_lenient yt_demo "PL123" none demo_items_resp
      [demo_good_item, demo_bad_item] rfl rfl).1, rfl⟩

/-- Claim C9: when a fetch yields absent, the spawned search task sends no
message on the corresponding channel, so the consumer's stored playlist
info (and likewise the stored page of videos) is unchanged over that poll
cycle. -/
theorem absent_result_isolation (yt_client : YouTubeClient) (v : VisualizerState) :
    (fetch_playlist_info yt_client v.current_playlist_id = none →
      (poll_playlist_info v (search_clicked v yt_client).info_msg).playlist_info
        = v.playlist_info)
    ∧ (fetch_video_page_with_cursor yt_client v.current_playlist_id
          v.current_page_cursor = none →
      (poll_playlist_videos_info v
          (search_clicked v yt_client).page_msg).playlist_videos_info
        = v.playlist_videos_info) := by
  constructor <;> intro h <;>
    simp [search_clicked, poll_playlist_info, poll_playlist_videos_info, h]

/-- Witness for C9 at a concrete failing remote client and a consumer state
with stored values. -/
theorem absent_result_isolation_witness :
    fetch_playlist_info yt_failing v_demo.current_playlist_id = none
    ∧ (poll_playlist_info v_demo
        (search_clicked v_demo yt_failing).info_msg).playlist_info
      = v_demo.playlist_info
    ∧ (poll_playlist_videos_info v_demo
        (search_clicked v_demo yt_failing).page_msg).playlist_videos_info
      = v_demo.playlist_videos_info :=
  ⟨rfl, (absent_result_isolation yt_failing v_demo).1 rfl,
   (absent_result_isolation yt_failing v_demo).2 rfl⟩

/-- Claim C1 (evaluation at a failing transfer): for a fresh single-item
download whose transfer fails, the task sends exactly `Pending` then
`Downloading` and stops — `Failed` is never sent (the source guards the
success path with `is_ok()` and has no failure branch, so the `Failed`
variant is never produced) — while the zero-length placeholder remains at
the target path; a succeeding transfer sends exactly `Pending`,
`Downloading`, `Finished`. -/
theorem single_download_failure_no_failed_status :
    (watch_clicked (fun _ => none) "v1" (fun _ => none)).statuses
      = [DownloadStatus.Pending, DownloadStatus.Downloading]
    ∧ DownloadStatus.Failed ∉
        (watch_clicked (fun _ => none) "v1" (fun _ => none)).statuses
    ∧ (watch_clicked (fun _ => none) "v1" (fun _ => none)).reported_paths = []
    ∧ (watch_clicked (fun _ => none) "v1" (fun _ => none)).fs (media_path "v1")
        = some 0
    ∧ (watch_clicked (fun _ => none) "v1" (fun _ => none)).task_spawned = true
    ∧ (watch_clicked (fun _ => none) "v1" (fun _ => some 100)).statuses
      = [DownloadStatus.Pending, DownloadStatus.Downloading,
         DownloadStatus.Finished] := by
  refine ⟨rfl, by decide, rfl, by decide, rfl, rfl⟩

/-- Claim C2 (evaluation of the cursor plumbing): after the consumer
receives a fetched page carrying `next_cursor = "tok2"`, its stored cursor
is still absent — the drain step for the page channel never writes
`current_page_cursor` — so the next search trigger passes the absent
cursor, not `"tok2"`, to the page fetch. -/
theorem cursor_never_threaded :
    (poll_playlist_videos_info v_demo
        (some { videos := [], next_cursor := some "tok2" })).playlist_videos_info
      = some { videos := [], next_cursor := some "tok2" }
    ∧ (poll_playlist_videos_info v_demo
        (some { videos := [], next_cursor := some "tok2" })).current_page_cursor
      = none
    ∧ (search_clicked
        (poll_playlist_videos_info v_demo
          (some { videos := [], next_cursor := some "tok2" }))
        yt_failing).cursor_sent = none :=
  ⟨rfl, rfl, rfl⟩

/-- Claim C5 counterexample: a zero-length file at the media path of `v1`
(a leftover placeholder) does NOT cause a new download — the existence
check `path.exists()` is satisfied by the empty file, so no task is
spawned, no status is sent, and the stale path is reported as if the item
were downloaded. -/
theorem empty_placeholder_blocks_redownload :
    fs_empty_v1 (media_path "v1") = some 0
    ∧ (watch_clicked fs_empty_v1 "v1" (fun _ => some 100)).task_spawned = false
    ∧ (watch_clicked fs_empty_v1 "v1" (fun _ => some 100)).statuses = []
    ∧ (watch_clicked fs_empty_v1 "v1" (fun _ => some 100)).reported_paths
        = [media_path "v1"]
    ∧ (download_all_clicked fs_empty_v1 ["v1"] (fun _ => some 100)).launched
        = [] := by
  refine ⟨by decide, by decide, by decide, by decide, by decide⟩

/-- Claim C5 amended: the dedup check is existence-only — any file at the
item's local media path, a zero-length placeholder included, makes the item
count as already downloaded and suppresses a new download (in both the
single-item and the bulk path); a new download is performed exactly when no
file exists at the path. -/
theorem dedup_by_existence_only (fs : FileSystem) (id : String)
    (transfer : Transfer) :
    (fs (media_path id) = some 0 →
      (watch_clicked fs id transfer).task_spawned = false
      ∧ (download_all_clicked fs [id] transfer).launched = [])
    ∧ ((fs (media_path id)).isNone →
      (watch_clicked fs id transfer).task_spawned = true) := by
  constructor
  · intro h
    constructor
    · simp [watch_clicked, h]
    · simp [download_all_clicked, h]
  · intro h
    rw [Option.isNone_iff_eq_none] at h
    simp [watch_clicked, h, single_download_task]

/-- Witness for the amended C5: the empty placeholder for `v1` suppresses a
download while the absent file for `v2` allows one. -/
theorem dedup_by_existence_only_witness :
    fs_empty_v1 (media_path "v1") = some 0
    ∧ (watch_clicked fs_empty_v1 "v1" (fun _ => none)).task_spawned = false
    ∧ (fs_empty_v1 (media_path "v2")).isNone = true
    ∧ (watch_clicked fs_empty_v1 "v2" (fun _ => none)).task_spawned = true :=
  ⟨by decide,
   ((dedup_by_existence_only fs_empty_v1 "v1" (fun _ => none)).1 (by decide)).1,
   by decide,
   (dedup_by_existence_only fs_empty_v1 "v2" (fun _ => none)).2 (by decide)⟩

end YtDl
